import Mathlib


/-!
Verification of the capture-orchestration engine of the AutonomousCar
repository (`collect_traffic_light_data.py`).

The Python class `TrafficLightDataCollector` is shallowly embedded here:

* distances and other continuous scalars are modelled as rationals;
* the mutable collector object (`self.counters`, `self.captured`,
  `self.frame_narrow`, `self.frame_wide`, `self.stats`) becomes the record
  `CollectorState`, threaded explicitly;
* external effects are modelled as inputs: the result of `cv2.imwrite`
  (which the Python code never inspects) is a boolean `writeOk`, the
  `datetime.now()` strftime timestamp is a natural number rendered in a
  fixed width, sensor callbacks are per-tick optional frame deliveries,
  and the CARLA world/pygame queries are per-tick input data;
* the filesystem is modelled as the list `savedFiles` of performed writes.
-/

set_option linter.unusedVariables false


/-- The two camera channels, `self.cameras = ['narrow', 'wide']`. -/
inductive Camera where
  | narrow
  | wide
deriving DecidableEq, Repr


/-- The four distance buckets, `self.distances = ['40m', '30m', '20m', '10m']`. -/
inductive DistBucket where
  | m40
  | m30
  | m20
  | m10
deriving DecidableEq, Repr


/-- `self.cameras` in the order the Python list has them. -/
def cameras : List Camera := [Camera.narrow, Camera.wide]


/-- A captured image: the raw pixel bytes (`array[:, :, :3].copy()`). -/
abbrev Frame := List Nat


/-- The deduplication key `(tl_id, bucket, camera)` built in `run`. -/
abbrev CaptureKey := Nat × DistBucket × Camera


/-- `TrafficLightDataCollector.get_distance_bucket`: nearest-first chain of
inclusive upper thresholds 12, 25, 35, 45; `None` beyond 45. -/
def get_distance_bucket (distance : ℚ) : Option DistBucket :=
  if distance ≤ 12 then some DistBucket.m10
  else if distance ≤ 25 then some DistBucket.m20
  else if distance ≤ 35 then some DistBucket.m30
  else if distance ≤ 45 then some DistBucket.m40
  else none


/-- Snapshot of `pygame.key.get_pressed()` for the keys the loop reads. -/
structure Keys where
  w : Bool
  s : Bool
  a : Bool
  d : Bool
  space : Bool
  q : Bool
deriving DecidableEq, Repr


/-- `carla.VehicleControl()` with its documented default field values. -/
structure VehicleControl where
  throttle : ℚ := 0
  steer : ℚ := 0
  brake : ℚ := 0
  hand_brake : Bool := false
  reverse : Bool := false
deriving DecidableEq, Repr


/-- The manual-control mapping of `run` (lines 174-198): W/S throttle-brake
with the speed-gated reverse assist, A/D steering with A winning in the
`elif`, SPACE handbrake.  `speed` is the magnitude of the vehicle velocity
queried in the S branch. -/
def manualControl (keys : Keys) (speed : ℚ) : VehicleControl :=
  let c : VehicleControl := {}
  let c :=
    if keys.w then { c with throttle := 0.7, reverse := false }
    else if keys.s then
      let c := { c with brake := 0.5 }
      if speed < 0.1 then { c with throttle := 0.5, reverse := true, brake := 0 }
      else c
    else c
  let c :=
    if keys.a then { c with steer := -0.5 }
    else if keys.d then { c with steer := 0.5 }
    else c
  if keys.space then { c with hand_brake := true } else c


/-! ## Filenames

`save_image` builds `f"traffic_light_{timestamp}_{idx:06d}.png"`. The
`datetime.now().strftime('%Y%m%d_%H%M%S_%f')` timestamp is a fixed-width,
zero-padded rendering of the current time whose character-wise order agrees
with chronological order; it is modelled as a natural number printed
zero-padded to 20 digits. `{idx:06d}` pads the counter with zeros to a
minimum width of 6 but keeps all digits of larger numbers. Filenames are
modelled as lists of character codes. -/

/-- Big-endian digits of `n`, zero-padded to exactly `w` digits (faithful to
zero-padding only when `n < 10 ^ w`). -/
def padDigits : Nat → Nat → List Nat
  | 0, _ => []
  | w + 1, n => n / 10 ^ w :: padDigits w (n % 10 ^ w)


/-- Digit recursion with explicit fuel (any fuel above the number works),
kept structural so that concrete filenames evaluate. -/
def decDigitsAux : Nat → Nat → List Nat
  | 0, _ => []
  | fuel + 1, n =>
      if n < 10 then [n] else decDigitsAux fuel (n / 10) ++ [n % 10]


/-- Big-endian digits of `n` with no padding (what `%d` prints). -/
def decimalDigits (n : Nat) : List Nat := decDigitsAux (n + 1) n


/-- The number a big-endian digit list denotes. -/
def valOfDigits (l : List Nat) : Nat := l.foldl (fun acc d => acc * 10 + d) 0


/-- The character code of a decimal digit. -/
def asciiDigit (d : Nat) : Nat := d + 48


/-- Python `f"{n:0wd}"`: zero-padded to width `w`, all digits kept beyond. -/
def intFmt (w n : Nat) : List Nat :=
  if n < 10 ^ w then padDigits w n else decimalDigits n


/-- Character codes of a fixed piece of text. -/
def strCodes (text : String) : List Nat := text.toList.map Char.toNat


/-- The filename `f"traffic_light_{timestamp}_{idx:06d}.png"` as a list of
character codes. -/
def mkFilename (ts idx : Nat) : List Nat :=
  strCodes "traffic_light_" ++ ((padDigits 20 ts).map asciiDigit ++
    (strCodes "_" ++ ((intFmt 6 idx).map asciiDigit ++ strCodes ".png")))


/-! ## Collector state and operations -/

/-- One file written to disk by `cv2.imwrite`: its directory is determined
by `(camera, bucket)`, plus its name and pixel payload. -/
structure SavedFile where
  camera : Camera
  bucket : DistBucket
  name : List Nat
  frame : Frame
deriving DecidableEq, Repr


/-- The mutable state of a `TrafficLightDataCollector` plus the filesystem
(`savedFiles`) and a ghost log of the successful captures (`persistLog`,
the keys for which `run` printed `Saved:` and marked the ledger). The
`defaultdict(int)` / `defaultdict(bool)` maps become total functions. -/
structure CollectorState where
  counters : Camera × DistBucket → Nat
  captured : CaptureKey → Bool
  frame_narrow : Option Frame
  frame_wide : Option Frame
  stats : Camera × DistBucket → Nat
  savedFiles : List SavedFile
  persistLog : List CaptureKey


/-- The state `__init__` leaves behind: zero counters, empty ledger, no
frames, zero stats, nothing on disk. -/
def initState : CollectorState where
  counters := fun _ => 0
  captured := fun _ => false
  frame_narrow := none
  frame_wide := none
  stats := fun _ => 0
  savedFiles := []
  persistLog := []


/-- `TrafficLightDataCollector.save_image(camera, distance_bucket)`.
Returns `None` leaving everything unchanged when no frame is cached for
`camera`; otherwise builds the filename from the current counter and the
timestamp, calls `cv2.imwrite` — whose success flag `writeOk` the Python
code ignores — then increments the counter and the stats entry and returns
the filename. -/
def save_image (writeOk : Bool) (ts : Nat) (s : CollectorState)
    (camera : Camera) (distance_bucket : DistBucket) :
    Option (List Nat) × CollectorState :=
  match (match camera with
         | Camera.narrow => s.frame_narrow
         | Camera.wide => s.frame_wide) with
  | none => (none, s)
  | some frame =>
      let idx := s.counters (camera, distance_bucket)
      let filename := mkFilename ts idx
      let s1 :=
        if writeOk then
          { s with savedFiles := s.savedFiles ++
              [{ camera := camera, bucket := distance_bucket,
                 name := filename, frame := frame }] }
        else s
      let s2 :=
        { s1 with
          counters := Function.update s1.counters (camera, distance_bucket)
            (s1.counters (camera, distance_bucket) + 1),
          stats := Function.update s1.stats (camera, distance_bucket)
            (s1.stats (camera, distance_bucket) + 1) }
      (some filename, s2)


/-- The body of `for camera in self.cameras` in `run` (lines 261-268): skip
if the ledger already holds `(tl_id, bucket, camera)`; otherwise call
`save_image` and, if it returned a filename, mark the ledger (and record
the successful capture in the ghost log). -/
def offerCamera (writeOk : Bool) (ts : Nat) (tlId : Nat)
    (bucket : DistBucket) (s : CollectorState) (camera : Camera) :
    CollectorState :=
  let key : CaptureKey := (tlId, bucket, camera)
  if s.captured key then s
  else
    match save_image writeOk ts s camera bucket with
    | (some _, s1) =>
        { s1 with
          captured := Function.update s1.captured key true,
          persistLog := s1.persistLog ++ [key] }
    | (none, s1) => s1


/-- One traffic light as the tick sees it: stable actor id, planar
position, and the 3-D distance `vehicle_loc.distance(tl_loc)` computed by
the external simulator API. -/
structure TrafficLight where
  id : Nat
  x : ℚ
  y : ℚ
  distance : ℚ
deriving DecidableEq, Repr


/-- The body of `for tl in traffic_lights` in `run` (lines 235-268):
bucket the distance (skip on `None`), form the planar offset to the light,
skip when the forward/offset dot product is negative, else offer every
camera. -/
def processTrafficLight (writeOk : Bool) (ts : Nat) (vehicleLoc : ℚ × ℚ)
    (forward : ℚ × ℚ) (s : CollectorState) (tl : TrafficLight) :
    CollectorState :=
  match get_distance_bucket tl.distance with
  | none => s
  | some bucket =>
      let toTlX := tl.x - vehicleLoc.1
      let toTlY := tl.y - vehicleLoc.2
      let dot := forward.1 * toTlX + forward.2 * toTlY
      if dot < 0 then s
      else cameras.foldl (offerCamera writeOk ts tl.id bucket) s


/-- Overwrite semantics of a sensor callback: a newly delivered frame
replaces the cached one, otherwise the cache keeps its previous content. -/
def updateFrame (new old : Option Frame) : Option Frame :=
  match new with
  | some f => some f
  | none => old


/-- Everything one iteration of the `while` loop observes from outside the
collector: the pygame event queue and pressed keys, the vehicle speed, the
frames delivered by the asynchronous camera callbacks since the previous
tick, whether the per-tick entity query raises, the enumerated traffic
lights with the observer pose, the `cv2.imwrite` success flag, and the
timestamp `datetime.now()` yields during this tick. -/
structure TickInput where
  interrupt : Bool
  quitEvent : Bool
  keys : Keys
  speed : ℚ
  newNarrow : Option Frame
  newWide : Option Frame
  queryError : Bool
  vehicleLoc : ℚ × ℚ
  forward : ℚ × ℚ
  lights : List TrafficLight
  writeOk : Bool
  ts : Nat


/-- How one iteration of the `while` loop ends. -/
inductive TickOutcome where
  | continueRunning (s : CollectorState)
  | quitRequested (s : CollectorState)
  | interrupted (s : CollectorState)
  | errored (s : CollectorState)


/-- The collector state an outcome carries. -/
def TickOutcome.state : TickOutcome → CollectorState
  | TickOutcome.continueRunning s => s
  | TickOutcome.quitRequested s => s
  | TickOutcome.interrupted s => s
  | TickOutcome.errored s => s


/-- One iteration of the `while` loop of `run` (lines 160-274): a
`KeyboardInterrupt` aborts the iteration; a `pygame.QUIT` event clears
`running` but the body still completes; `K_q` breaks immediately; the
control command is computed (`manualControl`) and applied externally;
`world.tick()` lets the camera callbacks overwrite the frame cache; if
either frame is missing the iteration `continue`s; then the entity query
runs — if it raises, the exception propagates out of the loop (only
`KeyboardInterrupt` is caught by `run`) — and every enumerated traffic
light is processed. -/
def runTick (t : TickInput) (s : CollectorState) : TickOutcome :=
  if t.interrupt then TickOutcome.interrupted s
  else
    let running := !t.quitEvent
    if t.keys.q then TickOutcome.quitRequested s
    else
      let s :=
        { s with
          frame_narrow := updateFrame t.newNarrow s.frame_narrow,
          frame_wide := updateFrame t.newWide s.frame_wide }
      if s.frame_narrow.isNone || s.frame_wide.isNone then
        (if running then TickOutcome.continueRunning s
         else TickOutcome.quitRequested s)
      else if t.queryError then TickOutcome.errored s
      else
        let s := t.lights.foldl
          (processTrafficLight t.writeOk t.ts t.vehicleLoc t.forward) s
        (if running then TickOutcome.continueRunning s
         else TickOutcome.quitRequested s)


/-- Why the `while` loop stopped. -/
inductive ExitKind where
  | durationDone
  | quit
  | interrupted
  | errored
deriving DecidableEq, Repr


/-- Final loop state, exit cause, and how many iterations ran. -/
structure LoopResult where
  state : CollectorState
  exitKind : ExitKind
  ticksProcessed : Nat


/-- The `while running and time.time() - start_time < duration` loop: the
tick list carries the external world's behaviour for each iteration, and
its exhaustion models the duration budget expiring. -/
def runLoop : List TickInput → CollectorState → LoopResult
  | [], s => ⟨s, ExitKind.durationDone, 0⟩
  | t :: rest, s =>
      match runTick t s with
      | TickOutcome.continueRunning s1 =>
          let r := runLoop rest s1
          ⟨r.state, r.exitKind, r.ticksProcessed + 1⟩
      | TickOutcome.quitRequested s1 => ⟨s1, ExitKind.quit, 1⟩
      | TickOutcome.interrupted s1 => ⟨s1, ExitKind.interrupted, 1⟩
      | TickOutcome.errored s1 => ⟨s1, ExitKind.errored, 1⟩


/-- Where the setup phase of `run` (lines 114-139, all before the
`try`/`finally`) can raise: connecting/spawning, attaching the sensor
suite, subscribing the two camera listeners (after synchronous mode was
already switched on), initialising pygame. -/
inductive SetupStage where
  | spawnWorld
  | spawnVehicle
  | equipSensors
  | listenSensors
  | initPygame
deriving DecidableEq, Repr


/-- Whether the synchronous-mode settings write (lines 128-131) has already
happened when the given setup stage raises. -/
def syncAltered : SetupStage → Bool
  | SetupStage.spawnWorld => false
  | SetupStage.spawnVehicle => false
  | SetupStage.equipSensors => false
  | SetupStage.listenSensors => true
  | SetupStage.initPygame => true


/-- Observable outcome of a whole `run` call. -/
structure RunResult where
  state : CollectorState
  cleanupRan : Bool
  syncMode : Bool
  summaryPrinted : Bool
  raised : Bool
  ticksProcessed : Nat


/-- `TrafficLightDataCollector.run`: setup happens before the
`try`/`finally`, so a setup failure propagates with no cleanup and leaves
the synchronous-mode flag wherever the failure point left it. Otherwise
the loop runs; the `finally` block always stops/destroys the sensors and
vehicle (`cleanupRan`) and writes `synchronous_mode = False`; the
`except KeyboardInterrupt` clause swallows interrupts, so the summary is
printed on every loop exit except an uncaught exception, which re-raises
after the `finally`. -/
def runModel (priorSync : Bool) (setupFail : Option SetupStage)
    (ticks : List TickInput) (s0 : CollectorState) : RunResult :=
  match setupFail with
  | some st =>
      { state := s0
        cleanupRan := false
        syncMode := if syncAltered st then true else priorSync
        summaryPrinted := false
        raised := true
        ticksProcessed := 0 }
  | none =>
      let r := runLoop ticks s0
      { state := r.state
        cleanupRan := true
        syncMode := false
        summaryPrinted := !(r.exitKind == ExitKind.errored)
        raised := r.exitKind == ExitKind.errored
        ticksProcessed := r.ticksProcessed }


/-- A collector state in which every capture key is already marked. -/
def fullyCaptured : CollectorState :=
  { initState with captured := fun _ => true }


/-- A light three metres behind the observer heading `(1, 0)`. -/
def tlBehind : TrafficLight := { id := 1, x := -3, y := 0, distance := 3 }


/-- A light exactly abeam of the observer heading `(1, 0)`. -/
def tlAbeam : TrafficLight := { id := 2, x := 0, y := 4, distance := 4 }


/-! ## C2: a failed `cv2.imwrite` is invisible to the collector -/

/-- A collector that has a cached narrow frame but has written nothing. -/
def c2State : CollectorState := { initState with frame_narrow := some [0] }


/-! ## C5: an environment-query error is fatal to the run -/

/-- No key pressed. -/
def normalKeys : Keys :=
  { w := false, s := false, a := false, d := false, space := false,
    q := false }


/-- A tick in which both cameras have delivered frames and the traffic
light query raises. -/
def errTick : TickInput :=
  { interrupt := false, quitEvent := false, keys := normalKeys, speed := 0,
    newNarrow := some [0], newWide := some [0], queryError := true,
    vehicleLoc := (0, 0), forward := (1, 0), lights := [], writeOk := true,
    ts := 0 }


/-- A healthy tick that would capture one traffic light five metres ahead
on both cameras. -/
def captureTick : TickInput :=
  { errTick with
    queryError := false
    lights := [{ id := 1, x := 5, y := 0, distance := 5 }] }


/-- A collector one successful save away from overflowing the six-digit
zero padding of the `narrow/10m` counter. -/
def nearOverflow : CollectorState :=
  { initState with
    frame_narrow := some [0]
    counters := fun p =>
      if p = (Camera.narrow, DistBucket.m10) then 999999 else 0 }


/-- C3: for every non-negative distance `d`, `get_distance_bucket` is total
and boundary-inclusive toward the nearer bucket: it yields `'10m'` iff
`d ≤ 12`, `'20m'` iff `12 < d ≤ 25`, `'30m'` iff `25 < d ≤ 35`, `'40m'` iff
`35 < d ≤ 45`, and `None` iff `45 < d`. -/
theorem C3_distance_bucket_boundaries (d : ℚ) (hd : 0 ≤ d) :
    (get_distance_bucket d = some DistBucket.m10 ↔ d ≤ 12) ∧
    (get_distance_bucket d = some DistBucket.m20 ↔ 12 < d ∧ d ≤ 25) ∧
    (get_distance_bucket d = some DistBucket.m30 ↔ 25 < d ∧ d ≤ 35) ∧
    (get_distance_bucket d = some DistBucket.m40 ↔ 35 < d ∧ d ≤ 45) ∧
    (get_distance_bucket d = none ↔ 45 < d) := by
  unfold get_distance_bucket
  split_ifs with h1 h2 h3 h4 <;>
    refine ⟨?_, ?_, ?_, ?_, ?_⟩ <;> constructor <;> intro h <;>
    (try obtain ⟨ha, hb⟩ := h) <;>
    first
      | rfl
      | (exact ⟨by linarith, by linarith⟩)
      | linarith
      | (exfalso; linarith)
      | (simp at h)


/-- Witness for C3 at the boundaries `d = 12` and `d = 12 + 1/10000`. -/
theorem C3_distance_bucket_boundaries_witness :
    get_distance_bucket 12 = some DistBucket.m10 ∧
    get_distance_bucket (12 + 1/10000) = some DistBucket.m20 := by
  constructor
  · exact (C3_distance_bucket_boundaries 12 (by norm_num)).1.mpr (by norm_num)
  · exact (C3_distance_bucket_boundaries (12 + 1/10000) (by norm_num)).2.1.mpr
      (by norm_num)


/-- C4: the control mapping is neutral with no keys pressed; the brake key
below the `0.1` speed threshold gives reverse assist (positive throttle,
reverse set, brake cleared to `0`); the brake key at or above the threshold
brakes only; the forward key sets throttle and clears reverse (and, per the
`elif`, takes priority over the brake key, so the brake-key clauses assume
`w` is not pressed); with both steer keys pressed, steer-left wins. -/
theorem C4_manual_control_mapping (k : Keys) (speed : ℚ) :
    ((k.w = false → k.s = false → k.a = false → k.d = false → k.space = false →
        manualControl k speed =
          { throttle := 0, steer := 0, brake := 0,
            hand_brake := false, reverse := false }) ∧
     (k.w = false → k.s = true → speed < 0.1 →
        0 < (manualControl k speed).throttle ∧
        (manualControl k speed).reverse = true ∧
        (manualControl k speed).brake = 0) ∧
     (k.w = false → k.s = true → 0.1 ≤ speed →
        0 < (manualControl k speed).brake ∧
        (manualControl k speed).reverse = false ∧
        (manualControl k speed).throttle = 0) ∧
     (k.w = true →
        (manualControl k speed).throttle = 0.7 ∧
        (manualControl k speed).reverse = false) ∧
     (k.a = true → k.d = true →
        (manualControl k speed).steer = -0.5)) := by
  refine ⟨?_, ?_, ?_, ?_, ?_⟩
  · intro hw hs ha hd hsp
    simp [manualControl, hw, hs, ha, hd, hsp]
  · intro hw hs hv
    simp only [manualControl, hw, hs]
    split_ifs with h1 h2 h3 h4 <;> simp_all <;> norm_num
  · intro hw hs hv
    have hv' : ¬ speed < 0.1 := not_lt.mpr hv
    simp only [manualControl, hw, hs]
    split_ifs with h1 h2 h3 h4 <;> simp_all <;> norm_num
  · intro hw
    simp only [manualControl, hw]
    split_ifs <;> simp_all <;> norm_num
  · intro ha hd
    simp only [manualControl, ha, hd]
    split_ifs <;> simp_all <;> norm_num


/-- Witness for C4: neutral with nothing pressed at speed `5`; reverse
assist with S pressed at speed `0`; brake only with S pressed at speed `3`;
throttle with W; left steer with both A and D. -/
theorem C4_manual_control_mapping_witness :
    manualControl { w := false, s := false, a := false, d := false,
                    space := false, q := false } 5 =
      { throttle := 0, steer := 0, brake := 0,
        hand_brake := false, reverse := false } ∧
    (manualControl { w := false, s := true, a := false, d := false,
                     space := false, q := false } 0).reverse = true ∧
    (manualControl { w := false, s := true, a := false, d := false,
                     space := false, q := false } 3).reverse = false ∧
    (manualControl { w := true, s := false, a := false, d := false,
                     space := false, q := false } 0).throttle = 0.7 ∧
    (manualControl { w := false, s := false, a := true, d := true,
                     space := false, q := false } 0).steer = -0.5 := by
  refine ⟨?_, ?_, ?_, ?_, ?_⟩
  · exact (C4_manual_control_mapping _ 5).1 rfl rfl rfl rfl rfl
  · exact ((C4_manual_control_mapping _ 0).2.1 rfl rfl (by norm_num)).2.1
  · exact ((C4_manual_control_mapping _ 3).2.2.1 rfl rfl (by norm_num)).2.1
  · exact ((C4_manual_control_mapping _ 0).2.2.2.1 rfl).1
  · exact (C4_manual_control_mapping _ 0).2.2.2.2 rfl rfl


/-! ## Basic facts about `save_image` -/

/-- `save_image` never touches the capture ledger. -/
theorem save_image_captured (w : Bool) (ts : Nat) (s : CollectorState)
    (c : Camera) (b : DistBucket) :
    ((save_image w ts s c b).2).captured = s.captured := by
  cases c <;> cases hn : s.frame_narrow <;> cases hw : s.frame_wide <;>
    cases w <;> simp [save_image, hn, hw]


/-- `save_image` never touches the ghost log of successful captures. -/
theorem save_image_persistLog (w : Bool) (ts : Nat) (s : CollectorState)
    (c : Camera) (b : DistBucket) :
    ((save_image w ts s c b).2).persistLog = s.persistLog := by
  cases c <;> cases hn : s.frame_narrow <;> cases hw : s.frame_wide <;>
    cases w <;> simp [save_image, hn, hw]


/-- `save_image` increments the counter and the stats entry together, so it
preserves their pointwise agreement. -/
theorem save_image_counters_stats (w : Bool) (ts : Nat) (s : CollectorState)
    (c : Camera) (b : DistBucket) (h : ∀ p, s.counters p = s.stats p) :
    ∀ p, ((save_image w ts s c b).2).counters p =
      ((save_image w ts s c b).2).stats p := by
  intro p
  cases c <;> cases hn : s.frame_narrow <;> cases hw : s.frame_wide <;>
    cases w <;>
    simp only [save_image, hn, hw, Function.update_apply] <;>
    first
      | exact h p
      | (split <;> simp [h p, h _])


/-! ## Generic preservation of state predicates through the loop -/

/-- Predicates preserved by a fold step are preserved by the fold. -/
theorem foldl_preserve {α : Type} (P : CollectorState → Prop)
    (f : CollectorState → α → CollectorState)
    (h : ∀ s a, P s → P (f s a)) :
    ∀ (l : List α) (s : CollectorState), P s → P (l.foldl f s) := by
  intro l
  induction l with
  | nil => intro s hs; exact hs
  | cons a rest ih => intro s hs; exact ih _ (h _ _ hs)


/-- A predicate preserved by every `offerCamera` call is preserved by
processing one traffic light. -/
theorem processTrafficLight_preserve (P : CollectorState → Prop)
    (hOff : ∀ w ts i b s c, P s → P (offerCamera w ts i b s c)) :
    ∀ w ts loc fwd s tl, P s → P (processTrafficLight w ts loc fwd s tl) := by
  intro w ts loc fwd s tl hs
  unfold processTrafficLight
  split
  · exact hs
  · dsimp only
    split
    · exact hs
    · exact foldl_preserve P _ (fun s c hp => hOff w ts tl.id _ s c hp)
        cameras s hs


/-- A predicate preserved by `offerCamera` and by frame-cache overwrites is
preserved by one loop iteration, whatever its outcome. -/
theorem runTick_preserve (P : CollectorState → Prop)
    (hOff : ∀ w ts i b s c, P s → P (offerCamera w ts i b s c))
    (hFr : ∀ s f1 f2, P s →
      P { s with frame_narrow := f1, frame_wide := f2 }) :
    ∀ t s, P s → P (runTick t s).state := by
  intro t s hs
  unfold runTick
  split
  · exact hs
  · dsimp only
    split
    · exact hs
    · have hs1 : P { s with
          frame_narrow := updateFrame t.newNarrow s.frame_narrow,
          frame_wide := updateFrame t.newWide s.frame_wide } :=
        hFr s _ _ hs
      split
      · split <;> exact hs1
      · split
        · exact hs1
        · have h2 := foldl_preserve P _
            (fun s tl hp =>
              processTrafficLight_preserve P hOff t.writeOk t.ts
                t.vehicleLoc t.forward s tl hp)
            t.lights _ hs1
          split <;> exact h2


/-- A predicate preserved by `offerCamera` and frame overwrites is an
invariant of the whole loop. -/
theorem runLoop_preserve (P : CollectorState → Prop)
    (hOff : ∀ w ts i b s c, P s → P (offerCamera w ts i b s c))
    (hFr : ∀ s f1 f2, P s →
      P { s with frame_narrow := f1, frame_wide := f2 }) :
    ∀ ticks s, P s → P (runLoop ticks s).state := by
  intro ticks
  induction ticks with
  | nil => intro s hs; exact hs
  | cons t rest ih =>
      intro s hs
      have h1 := runTick_preserve P hOff hFr t s hs
      simp only [runLoop]
      cases hrt : runTick t s with
      | continueRunning s1 =>
          rw [hrt] at h1
          exact ih s1 h1
      | quitRequested s1 => rw [hrt] at h1; exact h1
      | interrupted s1 => rw [hrt] at h1; exact h1
      | errored s1 => rw [hrt] at h1; exact h1


/-- A predicate preserved by `offerCamera` and frame overwrites holds of
the final state of any `run`. -/
theorem runModel_preserve (P : CollectorState → Prop)
    (hOff : ∀ w ts i b s c, P s → P (offerCamera w ts i b s c))
    (hFr : ∀ s f1 f2, P s →
      P { s with frame_narrow := f1, frame_wide := f2 }) :
    ∀ ps sf ticks s0, P s0 → P (runModel ps sf ticks s0).state := by
  intro ps sf ticks s0 hs
  cases sf with
  | none => exact runLoop_preserve P hOff hFr ticks s0 hs
  | some st => exact hs


/-! ## C1: at-most-once capture per key -/

/-- `offerCamera` preserves the per-key invariant "unmarked keys have no
logged capture, and no key has more than one". -/
theorem offerCamera_atMostOnce (k : CaptureKey) (w : Bool) (ts i : Nat)
    (b : DistBucket) (s : CollectorState) (c : Camera)
    (h : (s.captured k = false → s.persistLog.count k = 0) ∧
      s.persistLog.count k ≤ 1) :
    ((offerCamera w ts i b s c).captured k = false →
        (offerCamera w ts i b s c).persistLog.count k = 0) ∧
      (offerCamera w ts i b s c).persistLog.count k ≤ 1 := by
  unfold offerCamera
  dsimp only
  split
  · exact h
  · rename_i hcap
    cases hsv : save_image w ts s c b with
    | mk fn s1 =>
        have hc := save_image_captured w ts s c b
        have hl := save_image_persistLog w ts s c b
        rw [hsv] at hc hl
        dsimp only at hc hl
        cases fn with
        | none => dsimp only; rw [hc, hl]; exact h
        | some f =>
            dsimp only
            rw [hl, hc]
            by_cases hk : k = (i, b, c)
            · have hcapk : s.captured k = false := by
                rw [hk]; exact Bool.eq_false_iff.mpr hcap
              have hzero : s.persistLog.count k = 0 := h.1 hcapk
              constructor
              · intro hfalse
                rw [Function.update_apply, if_pos hk] at hfalse
                exact absurd hfalse (by simp)
              · rw [hk] at hzero
                simp [List.count_append, List.count_singleton, hzero,
                  beq_iff_eq, hk]
            · have hne : ((i, b, c) : CaptureKey) ≠ k := fun hh => hk hh.symm
              constructor
              · intro hfalse
                rw [Function.update_apply, if_neg hk] at hfalse
                have h0 := h.1 hfalse
                simp [List.count_append, List.count_singleton, h0,
                  beq_iff_eq, hne]
              · have hcnt : (s.persistLog ++ [((i, b, c) : CaptureKey)]).count k
                    = s.persistLog.count k := by
                  simp [List.count_append, List.count_singleton,
                    beq_iff_eq, hne]
                rw [hcnt]
                exact h.2


/-- C1: for every run and every `CaptureKey`, across any sequence of ticks
the successful-persist log holds that key at most once; and once the key is
marked in the ledger, offering it again is a complete no-op, so no new file
is written and the counters for its `(camera, bucket)` stay unchanged. -/
theorem C1_capture_at_most_once :
    (∀ (priorSync : Bool) (setupFail : Option SetupStage)
       (ticks : List TickInput) (k : CaptureKey),
       (runModel priorSync setupFail ticks initState).state.persistLog.count k
         ≤ 1) ∧
    (∀ (w : Bool) (ts tlId : Nat) (b : DistBucket) (s : CollectorState)
       (c : Camera),
       s.captured (tlId, b, c) = true → offerCamera w ts tlId b s c = s) := by
  constructor
  · intro ps sf ticks k
    have h := runModel_preserve
      (fun s => (s.captured k = false → s.persistLog.count k = 0) ∧
        s.persistLog.count k ≤ 1)
      (fun w ts i b s c hp => offerCamera_atMostOnce k w ts i b s c hp)
      (fun s f1 f2 hp => hp)
      ps sf ticks initState ⟨fun _ => rfl, by simp [initState]⟩
    exact h.2
  · intro w ts tlId b s c hcap
    unfold offerCamera
    dsimp only
    rw [if_pos hcap]


/-- Witness for C1: the log bound on the empty run, and a marked key
offered to a fully-marked collector leaves the state untouched. -/
theorem C1_capture_at_most_once_witness :
    (runModel true none [] initState).state.persistLog.count
        (0, DistBucket.m10, Camera.narrow) ≤ 1 ∧
    offerCamera true 0 5 DistBucket.m10 fullyCaptured Camera.narrow =
      fullyCaptured := by
  exact ⟨C1_capture_at_most_once.1 true none []
      (0, DistBucket.m10, Camera.narrow),
    C1_capture_at_most_once.2 true 0 5 DistBucket.m10 fullyCaptured
      Camera.narrow rfl⟩


/-! ## C8: no cached frame means a silent no-op -/

/-- C8: a `save_image` call finding no cached frame for its camera returns
`None` and leaves the whole collector state (counters, stats, ledger,
filesystem) exactly as it was. -/
theorem C8_save_image_no_frame (w : Bool) (ts : Nat) (s : CollectorState)
    (b : DistBucket) :
    (s.frame_narrow = none →
       save_image w ts s Camera.narrow b = (none, s)) ∧
    (s.frame_wide = none →
       save_image w ts s Camera.wide b = (none, s)) := by
  constructor <;> intro h <;> simp [save_image, h]


/-- Witness for C8 on the freshly initialised collector, whose frame cache
is empty. -/
theorem C8_save_image_no_frame_witness :
    save_image true 0 initState Camera.narrow DistBucket.m10 =
      (none, initState) :=
  (C8_save_image_no_frame true 0 initState DistBucket.m10).1 rfl


/-! ## C10: the filename counters and the stats agree -/

/-- `offerCamera` preserves pointwise agreement of `counters` and `stats`. -/
theorem offerCamera_counters_stats (w : Bool) (ts i : Nat) (b : DistBucket)
    (s : CollectorState) (c : Camera)
    (h : ∀ p, s.counters p = s.stats p) :
    ∀ p, (offerCamera w ts i b s c).counters p =
      (offerCamera w ts i b s c).stats p := by
  unfold offerCamera
  dsimp only
  split
  · exact h
  · cases hsv : save_image w ts s c b with
    | mk fn s1 =>
        have hcs := save_image_counters_stats w ts s c b h
        rw [hsv] at hcs
        dsimp only at hcs
        cases fn with
        | none => exact hcs
        | some f => exact hcs


/-- C10 (implicit invariant): after any run, for every `(camera, bucket)`
pair the filename counter equals the stats counter — `save_image` is the
only mutator of either and bumps both together. -/
theorem C10_counters_match_stats :
    ∀ (priorSync : Bool) (setupFail : Option SetupStage)
      (ticks : List TickInput) (p : Camera × DistBucket),
      (runModel priorSync setupFail ticks initState).state.counters p =
        (runModel priorSync setupFail ticks initState).state.stats p := by
  intro ps sf ticks p
  exact runModel_preserve (fun s => ∀ p, s.counters p = s.stats p)
    (fun w ts i b s c hp => offerCamera_counters_stats w ts i b s c hp)
    (fun s f1 f2 hp => hp)
    ps sf ticks initState (fun _ => rfl) p


/-! ## C7: the forward-visibility dot-product gate -/

/-- C7: an entity whose planar forward/offset dot product is negative is
skipped entirely — the tick leaves the state untouched for it, so it never
triggers a persist in any bucket — while a non-negative dot product (zero
included, hence "exactly abeam is visible") proceeds to the per-camera
capture stage whenever the distance fell in a bucket. -/
theorem C7_forward_visibility (w : Bool) (ts : Nat) (loc fwd : ℚ × ℚ)
    (s : CollectorState) (tl : TrafficLight) :
    (fwd.1 * (tl.x - loc.1) + fwd.2 * (tl.y - loc.2) < 0 →
       processTrafficLight w ts loc fwd s tl = s) ∧
    (∀ b, get_distance_bucket tl.distance = some b →
       0 ≤ fwd.1 * (tl.x - loc.1) + fwd.2 * (tl.y - loc.2) →
       processTrafficLight w ts loc fwd s tl =
         cameras.foldl (offerCamera w ts tl.id b) s) := by
  cases hb : get_distance_bucket tl.distance with
  | none =>
      constructor
      · intro h; simp [processTrafficLight, hb]
      · intro b hb' h; exact absurd hb' (by simp)
  | some b0 =>
      constructor
      · intro h
        simp [processTrafficLight, hb, h]
      · intro b hb' hge
        injection hb' with hbb
        subst hbb
        simp [processTrafficLight, hb, not_lt.mpr hge]


/-- Witness for C7: the behind light changes nothing; the abeam light
(dot product zero) reaches the capture stage. -/
theorem C7_forward_visibility_witness :
    processTrafficLight true 0 (0, 0) (1, 0) initState tlBehind =
      initState ∧
    processTrafficLight true 0 (0, 0) (1, 0) initState tlAbeam =
      cameras.foldl (offerCamera true 0 tlAbeam.id DistBucket.m10)
        initState := by
  constructor
  · exact (C7_forward_visibility true 0 (0, 0) (1, 0) initState tlBehind).1
      (by norm_num [tlBehind])
  · exact (C7_forward_visibility true 0 (0, 0) (1, 0) initState tlAbeam).2
      DistBucket.m10 (by decide) (by norm_num [tlAbeam])


/-- C2 is a code bug: `save_image` never inspects the value `cv2.imwrite`
returns.  When the write fails (`writeOk = false`) with a frame cached, no
file reaches the filesystem, yet the counter and the stats entry are still
incremented and the filename is still returned — so the caller in `run`
still marks the capture ledger, permanently blocking any retry of that
key. -/
theorem C2_write_failure_still_counts :
    (save_image false 7 c2State Camera.narrow DistBucket.m10).1 =
        some (mkFilename 7 0) ∧
    (save_image false 7 c2State Camera.narrow DistBucket.m10).2.counters
        (Camera.narrow, DistBucket.m10) = 1 ∧
    (save_image false 7 c2State Camera.narrow DistBucket.m10).2.stats
        (Camera.narrow, DistBucket.m10) = 1 ∧
    (save_image false 7 c2State Camera.narrow DistBucket.m10).2.savedFiles
        = [] ∧
    (offerCamera false 7 42 DistBucket.m10 c2State Camera.narrow).captured
        (42, DistBucket.m10, Camera.narrow) = true ∧
    (offerCamera false 7 42 DistBucket.m10 c2State Camera.narrow).savedFiles
        = [] := by
  refine ⟨?_, ?_, ?_, ?_, ?_, ?_⟩ <;> decide


/-- If one loop iteration reaches the entity query (not interrupted, `q`
not pressed, both frames present) and the query raises, the iteration ends
in `errored`. -/
theorem runTick_queryError (t : TickInput) (s : CollectorState)
    (h1 : t.interrupt = false) (h2 : t.keys.q = false)
    (h3 : (updateFrame t.newNarrow s.frame_narrow).isSome = true)
    (h4 : (updateFrame t.newWide s.frame_wide).isSome = true)
    (h5 : t.queryError = true) :
    runTick t s = TickOutcome.errored
      { s with frame_narrow := updateFrame t.newNarrow s.frame_narrow,
               frame_wide := updateFrame t.newWide s.frame_wide } := by
  have hn : (updateFrame t.newNarrow s.frame_narrow).isNone = false := by
    cases hh : updateFrame t.newNarrow s.frame_narrow <;> simp_all
  have hw : (updateFrame t.newWide s.frame_wide).isNone = false := by
    cases hh : updateFrame t.newWide s.frame_wide <;> simp_all
  simp [runTick, h1, h2, h5, hn, hw]


/-- C5 amended: when the per-tick entity query raises, the exception is not
caught — the loop stops right there (the remaining ticks are irrelevant to
the result), and at `run` level the `finally` cleanup still executes but
the run re-raises and never prints its summary. -/
theorem C5_amended_query_error_fatal :
    (∀ (t : TickInput) (rest rest' : List TickInput) (s : CollectorState),
       t.interrupt = false → t.keys.q = false →
       (updateFrame t.newNarrow s.frame_narrow).isSome = true →
       (updateFrame t.newWide s.frame_wide).isSome = true →
       t.queryError = true →
       runLoop (t :: rest) s = runLoop (t :: rest') s ∧
       (runLoop (t :: rest) s).exitKind = ExitKind.errored) ∧
    (∀ (ps : Bool) (ticks : List TickInput),
       (runLoop ticks initState).exitKind = ExitKind.errored →
       (runModel ps none ticks initState).cleanupRan = true ∧
       (runModel ps none ticks initState).raised = true ∧
       (runModel ps none ticks initState).summaryPrinted = false) := by
  constructor
  · intro t rest rest' s h1 h2 h3 h4 h5
    have hrt := runTick_queryError t s h1 h2 h3 h4 h5
    constructor
    · simp only [runLoop, hrt]
    · simp only [runLoop, hrt]
  · intro ps ticks h
    simp [runModel, h]


/-- Witness for C5 (amended) on the concrete error tick. -/
theorem C5_amended_query_error_fatal_witness :
    (runLoop [errTick, captureTick] initState =
        runLoop [errTick] initState ∧
     (runLoop [errTick, captureTick] initState).exitKind =
        ExitKind.errored) ∧
    ((runModel true none [errTick] initState).cleanupRan = true ∧
     (runModel true none [errTick] initState).raised = true ∧
     (runModel true none [errTick] initState).summaryPrinted = false) := by
  exact ⟨C5_amended_query_error_fatal.1 errTick [captureTick] [] initState
      rfl rfl rfl rfl rfl,
    C5_amended_query_error_fatal.2 true [errTick] (by decide)⟩


/-- Counterexample to C5 as stated: after a query error on the first tick
the run terminates — the second tick (which, run alone, captures two
images) is never processed, the exception propagates, and nothing was
captured. The claim would require both ticks processed and no raise. -/
theorem C5_counterexample_query_error_kills_run :
    (runModel true none [errTick, captureTick] initState).ticksProcessed
        = 1 ∧
    (runModel true none [errTick, captureTick] initState).raised = true ∧
    (runModel true none [errTick, captureTick] initState).state.persistLog
        = [] ∧
    (runModel true none [captureTick] initState).state.persistLog ≠ [] := by
  refine ⟨by decide, by decide, by decide, ?_⟩
  have htl : processTrafficLight true 0 (0, 0) (1, 0)
      { initState with frame_narrow := some [0], frame_wide := some [0] }
      { id := 1, x := 5, y := 0, distance := 5 } =
      cameras.foldl (offerCamera true 0 1 DistBucket.m10)
        { initState with frame_narrow := some [0], frame_wide := some [0] } := by
    norm_num [processTrafficLight, get_distance_bucket]
  have hrt : runTick captureTick initState = TickOutcome.continueRunning
      (cameras.foldl (offerCamera true 0 1 DistBucket.m10)
        { initState with frame_narrow := some [0], frame_wide := some [0] }) := by
    simp only [runTick, captureTick, errTick, normalKeys, updateFrame,
      initState, List.foldl]
    norm_num
    exact htl
  simp only [runModel, runLoop, hrt]
  decide


/-! ## C6: cleanup coverage of the exit paths -/

/-- C6 amended: whenever setup completes, every way the loop can exit —
duration expiry, quit signal, `KeyboardInterrupt`, or an uncaught in-loop
exception — reaches the `finally` block: sensors and vehicle are destroyed
and `synchronous_mode` is set to `False`. But when setup itself raises
(e.g. partway through attaching sensors), the `try` was never entered: no
cleanup runs at all. -/
theorem C6_amended_cleanup :
    (∀ (ps : Bool) (ticks : List TickInput),
       (runModel ps none ticks initState).cleanupRan = true ∧
       (runModel ps none ticks initState).syncMode = false) ∧
    (∀ (ps : Bool) (st : SetupStage) (ticks : List TickInput),
       (runModel ps (some st) ticks initState).cleanupRan = false) := by
  constructor
  · intro ps ticks; exact ⟨rfl, rfl⟩
  · intro ps st ticks; rfl


/-- Counterexample to C6 as stated: a fatal failure in `equip_sensors`
runs no cleanup at all; a failure after the synchronous-mode write leaves
the flag on (not restored); and even a clean run ends with the flag forced
to `False` rather than restored to a prior `True`. -/
theorem C6_counterexample_setup_failure_skips_cleanup :
    (runModel false (some SetupStage.equipSensors) [] initState).cleanupRan
        = false ∧
    (runModel false (some SetupStage.listenSensors) [] initState).syncMode
        = true ∧
    (runModel true none [] initState).syncMode = false := by
  exact ⟨rfl, rfl, rfl⟩


/-! ## C9: filename uniqueness and ordering -/

theorem padDigits_length : ∀ (w n : Nat), (padDigits w n).length = w := by
  intro w
  induction w with
  | zero => intro n; rfl
  | succ w ih => intro n; simp [padDigits, ih]


theorem lex_irrefl : ∀ l : List Nat, ¬ List.Lex (· < ·) l l := by
  intro l
  induction l with
  | nil => intro h; nomatch h
  | cons a t ih =>
      intro h
      cases h with
      | cons h' => exact ih h'
      | rel hr => exact absurd hr (lt_irrefl a)


theorem lex_append_left :
    ∀ (p l1 l2 : List Nat), List.Lex (· < ·) l1 l2 →
      List.Lex (· < ·) (p ++ l1) (p ++ l2) := by
  intro p
  induction p with
  | nil => intro l1 l2 h; exact h
  | cons a t ih =>
      intro l1 l2 h
      simp only [List.cons_append]
      exact List.Lex.cons (ih l1 l2 h)


theorem lex_append_of_length_eq {l1 l2 : List Nat}
    (h : List.Lex (· < ·) l1 l2) :
    l1.length = l2.length →
    ∀ s1 s2 : List Nat, List.Lex (· < ·) (l1 ++ s1) (l2 ++ s2) := by
  induction h with
  | nil => intro hlen; simp at hlen
  | cons h ih =>
      intro hlen s1 s2
      simp only [List.cons_append]
      exact List.Lex.cons (ih (by simpa using hlen) s1 s2)
  | rel hr =>
      intro hlen s1 s2
      simp only [List.cons_append]
      exact List.Lex.rel hr


theorem lex_map_asciiDigit {l1 l2 : List Nat}
    (h : List.Lex (· < ·) l1 l2) :
    List.Lex (· < ·) (l1.map asciiDigit) (l2.map asciiDigit) := by
  induction h with
  | nil => simp only [List.map_nil, List.map_cons]; exact List.Lex.nil
  | cons h ih => simp only [List.map_cons]; exact List.Lex.cons ih
  | rel hr =>
      simp only [List.map_cons]
      exact List.Lex.rel (by simpa [asciiDigit] using Nat.add_lt_add_right hr 48)


theorem map_asciiDigit_inj {l1 l2 : List Nat}
    (h : l1.map asciiDigit = l2.map asciiDigit) : l1 = l2 := by
  have hinj : Function.Injective asciiDigit := fun x y hxy => by
    simpa [asciiDigit] using hxy
  exact List.map_injective_iff.mpr hinj h


theorem padDigits_lt_lex : ∀ (w a b : Nat), a < b → b < 10 ^ w →
    List.Lex (· < ·) (padDigits w a) (padDigits w b) := by
  intro w
  induction w with
  | zero =>
      intro a b hab hb
      exfalso
      simp only [pow_zero] at hb
      omega
  | succ w ih =>
      intro a b hab hb
      simp only [padDigits]
      rcases Nat.lt_or_ge (a / 10 ^ w) (b / 10 ^ w) with h | h
      · exact List.Lex.rel h
      · have hq : a / 10 ^ w = b / 10 ^ w :=
          le_antisymm (Nat.div_le_div_right (le_of_lt hab)) h
        rw [hq]
        apply List.Lex.cons
        apply ih
        · have h1 : 10 ^ w * (a / 10 ^ w) + a % 10 ^ w = a :=
            Nat.div_add_mod a _
          have h2 : 10 ^ w * (b / 10 ^ w) + b % 10 ^ w = b :=
            Nat.div_add_mod b _
          rw [hq] at h1
          omega
        · exact Nat.mod_lt _ (Nat.pos_pow_of_pos w (by omega))


theorem padDigits_inj {w a b : Nat} (ha : a < 10 ^ w) (hb : b < 10 ^ w)
    (h : padDigits w a = padDigits w b) : a = b := by
  rcases Nat.lt_trichotomy a b with hlt | heq | hlt
  · have hx := padDigits_lt_lex w a b hlt hb
    rw [h] at hx
    exact absurd hx (lex_irrefl _)
  · exact heq
  · have hx := padDigits_lt_lex w b a hlt ha
    rw [h] at hx
    exact absurd hx (lex_irrefl _)


theorem valOfDigits_append_single (xs : List Nat) (d : Nat) :
    valOfDigits (xs ++ [d]) = valOfDigits xs * 10 + d := by
  simp [valOfDigits, List.foldl_append]


theorem decDigitsAux_val :
    ∀ (fuel n : Nat), n < fuel → valOfDigits (decDigitsAux fuel n) = n := by
  intro fuel
  induction fuel with
  | zero => intro n h; omega
  | succ fuel ih =>
      intro n h
      simp only [decDigitsAux]
      split
      · rename_i h10; simp [valOfDigits]
      · rename_i h10
        rw [valOfDigits_append_single, ih (n / 10) (by omega)]
        omega


theorem decDigitsAux_lt_pow_length :
    ∀ (fuel n : Nat), n < fuel → n < 10 ^ (decDigitsAux fuel n).length := by
  intro fuel
  induction fuel with
  | zero => intro n h; omega
  | succ fuel ih =>
      intro n h
      simp only [decDigitsAux]
      split
      · rename_i h10; simpa using h10
      · rename_i h10
        have ihh := ih (n / 10) (by omega)
        simp only [List.length_append, List.length_singleton, pow_succ]
        omega


theorem decimalDigits_val (n : Nat) : valOfDigits (decimalDigits n) = n :=
  decDigitsAux_val (n + 1) n (Nat.lt_succ_self n)


theorem decimalDigits_inj {a b : Nat}
    (h : decimalDigits a = decimalDigits b) : a = b := by
  have ha := decimalDigits_val a
  rw [h, decimalDigits_val] at ha
  omega


theorem decimalDigits_lt_pow_length (n : Nat) :
    n < 10 ^ (decimalDigits n).length :=
  decDigitsAux_lt_pow_length (n + 1) n (Nat.lt_succ_self n)


theorem intFmt6_inj {a b : Nat} (h : intFmt 6 a = intFmt 6 b) : a = b := by
  unfold intFmt at h
  split at h <;> split at h
  · rename_i ha hb; exact padDigits_inj ha hb h
  · rename_i ha hb
    exfalso
    have h1 : (padDigits 6 a).length = 6 := padDigits_length 6 a
    rw [h] at h1
    have h2 := decimalDigits_lt_pow_length b
    rw [h1] at h2
    omega
  · rename_i ha hb
    exfalso
    have h1 : (padDigits 6 b).length = 6 := padDigits_length 6 b
    rw [← h] at h1
    have h2 := decimalDigits_lt_pow_length a
    rw [h1] at h2
    omega
  · exact decimalDigits_inj h


theorem mkFilename_distinct {ts1 ts2 i1 i2 : Nat}
    (h1 : ts1 < 10 ^ 20) (h2 : ts2 < 10 ^ 20)
    (hne : ts1 ≠ ts2 ∨ i1 ≠ i2) :
    mkFilename ts1 i1 ≠ mkFilename ts2 i2 := by
  intro h
  unfold mkFilename at h
  obtain ⟨-, h⟩ := List.append_inj h rfl
  obtain ⟨hts, h⟩ := List.append_inj h
    (by simp [padDigits_length])
  have htseq : ts1 = ts2 := padDigits_inj h1 h2 (map_asciiDigit_inj hts)
  obtain ⟨-, h⟩ := List.append_inj h rfl
  have hidx : i1 = i2 :=
    intFmt6_inj (map_asciiDigit_inj (List.append_cancel_right h))
  rcases hne with hne | hne
  · exact hne htseq
  · exact hne hidx


theorem mkFilename_lex {ts1 ts2 i1 i2 : Nat}
    (hts : ts1 ≤ ts2) (h2 : ts2 < 10 ^ 20) (hi : i1 < i2)
    (h6 : i2 < 10 ^ 6) :
    List.Lex (· < ·) (mkFilename ts1 i1) (mkFilename ts2 i2) := by
  unfold mkFilename
  apply lex_append_left
  rcases Nat.lt_or_ge ts1 ts2 with hlt | hge
  · exact lex_append_of_length_eq
      (lex_map_asciiDigit (padDigits_lt_lex 20 ts1 ts2 hlt h2))
      (by simp [padDigits_length]) _ _
  · have hts2 : ts1 = ts2 := le_antisymm hts hge
    subst hts2
    apply lex_append_left
    apply lex_append_left
    have hlex := lex_map_asciiDigit (padDigits_lt_lex 6 i1 i2 hi h6)
    have hfmt1 : intFmt 6 i1 = padDigits 6 i1 := by
      unfold intFmt
      exact if_pos (lt_trans hi h6)
    have hfmt2 : intFmt 6 i2 = padDigits 6 i2 := by
      unfold intFmt
      exact if_pos h6
    rw [hfmt1, hfmt2]
    exact lex_append_of_length_eq hlex (by simp [padDigits_length]) _ _


theorem save_image_filename_counter (w : Bool) (ts : Nat)
    (s : CollectorState) (c : Camera) (b : DistBucket) (fn : List Nat)
    (s' : CollectorState) (h : save_image w ts s c b = (some fn, s')) :
    fn = mkFilename ts (s.counters (c, b)) ∧
    s'.counters (c, b) = s.counters (c, b) + 1 := by
  cases c <;> cases hn : s.frame_narrow <;> cases hw : s.frame_wide <;>
    cases w <;> simp only [save_image, hn, hw, Prod.mk.injEq,
      Option.some.injEq, reduceCtorEq, false_and] at h <;>
    obtain ⟨h1, h2⟩ := h <;> subst h2 <;>
    exact ⟨h1.symm, by simp [Function.update_same]⟩


theorem save_image_counters_mono (w : Bool) (ts : Nat) (s : CollectorState)
    (c : Camera) (b : DistBucket) (p : Camera × DistBucket) :
    s.counters p ≤ ((save_image w ts s c b).2).counters p := by
  cases c <;> cases hn : s.frame_narrow <;> cases hw : s.frame_wide <;>
    cases w <;> simp [save_image, hn, hw, Function.update_apply] <;>
    split <;> simp_all


theorem offerCamera_counters_mono (w : Bool) (ts i : Nat) (b : DistBucket)
    (s : CollectorState) (c : Camera) (p : Camera × DistBucket) :
    s.counters p ≤ (offerCamera w ts i b s c).counters p := by
  unfold offerCamera
  dsimp only
  split
  · exact le_refl _
  · cases hsv : save_image w ts s c b with
    | mk fn s1 =>
        have hm := save_image_counters_mono w ts s c b p
        rw [hsv] at hm
        cases fn with
        | none => exact hm
        | some f => exact hm


/-- C9 (amended): filenames generated by `save_image` are pairwise distinct
for distinct `(timestamp, counter)` pairs — in particular across identical
timestamps, because successful saves for a pair use strictly increasing
counter values (each successful save embeds the current counter and bumps
it by one, and no operation ever decreases a counter) — and their
lexicographic order matches capture order provided the counter stays below
`10 ^ 6`, the width of the `%06d` zero padding (`10 ^ 20` stands for the
fixed width of the timestamp field). -/
theorem C9_filename_uniqueness_and_order :
    (∀ ts1 ts2 i1 i2 : Nat, ts1 < 10 ^ 20 → ts2 < 10 ^ 20 →
       ts1 ≠ ts2 ∨ i1 ≠ i2 → mkFilename ts1 i1 ≠ mkFilename ts2 i2) ∧
    (∀ ts1 ts2 i1 i2 : Nat, ts1 ≤ ts2 → ts2 < 10 ^ 20 → i1 < i2 →
       i2 < 10 ^ 6 →
       List.Lex (· < ·) (mkFilename ts1 i1) (mkFilename ts2 i2)) ∧
    (∀ (w : Bool) (ts : Nat) (s : CollectorState) (c : Camera)
       (b : DistBucket) (fn : List Nat) (s' : CollectorState),
       save_image w ts s c b = (some fn, s') →
       fn = mkFilename ts (s.counters (c, b)) ∧
       s'.counters (c, b) = s.counters (c, b) + 1) ∧
    (∀ (w : Bool) (ts i : Nat) (b : DistBucket) (s : CollectorState)
       (c : Camera) (p : Camera × DistBucket),
       s.counters p ≤ (offerCamera w ts i b s c).counters p) :=
  ⟨fun _ _ _ _ h1 h2 hne => mkFilename_distinct h1 h2 hne,
   fun _ _ _ _ hts h2 hi h6 => mkFilename_lex hts h2 hi h6,
   fun w ts s c b fn s' h => save_image_filename_counter w ts s c b fn s' h,
   fun w ts i b s c p => offerCamera_counters_mono w ts i b s c p⟩


/-- Witness for C9 (amended) at concrete timestamps and counters, with a
concrete successful save on a cached frame. -/
theorem C9_filename_uniqueness_and_order_witness :
    mkFilename 5 0 ≠ mkFilename 5 1 ∧
    List.Lex (· < ·) (mkFilename 5 0) (mkFilename 5 1) ∧
    ((save_image true 3 c2State Camera.narrow DistBucket.m10).1 =
        some (mkFilename 3 0) ∧
     (save_image true 3 c2State Camera.narrow DistBucket.m10).2.counters
        (Camera.narrow, DistBucket.m10) =
       c2State.counters (Camera.narrow, DistBucket.m10) + 1) ∧
    initState.counters (Camera.narrow, DistBucket.m10) ≤
      (offerCamera true 0 1 DistBucket.m10 initState
        Camera.narrow).counters (Camera.narrow, DistBucket.m10) := by
  have hpair : save_image true 3 c2State Camera.narrow DistBucket.m10 =
      (some (mkFilename 3 0),
       (save_image true 3 c2State Camera.narrow DistBucket.m10).2) := by
    have h1 : (save_image true 3 c2State Camera.narrow DistBucket.m10).1 =
        some (mkFilename 3 0) := by decide
    exact Prod.ext h1 rfl
  have h := C9_filename_uniqueness_and_order.2.2.1 true 3 c2State
    Camera.narrow DistBucket.m10 (mkFilename 3 0) _ hpair
  refine ⟨?_, ?_, ⟨congrArg Prod.fst hpair, h.2⟩, ?_⟩
  · exact C9_filename_uniqueness_and_order.1 5 5 0 1 (by norm_num)
      (by norm_num) (Or.inr (by omega))
  · exact C9_filename_uniqueness_and_order.2.1 5 5 0 1 (le_refl 5)
      (by norm_num) (by omega) (by norm_num)
  · exact C9_filename_uniqueness_and_order.2.2.2 true 0 1 DistBucket.m10
      initState Camera.narrow _


/-- Counterexample to C9 as stated: two consecutive successful saves for
`narrow/10m` with the same timestamp at counters `999999` and `1000000`
produce distinct filenames whose lexicographic order is the reverse of the
capture order — `%06d` stops zero-padding at seven digits, so the claim's
unqualified "lexicographic order matches capture order" fails. -/
theorem C9_counterexample_counter_overflow :
    (save_image true 7 nearOverflow Camera.narrow DistBucket.m10).1 =
        some (mkFilename 7 999999) ∧
    (save_image true 7
        (save_image true 7 nearOverflow Camera.narrow DistBucket.m10).2
        Camera.narrow DistBucket.m10).1 = some (mkFilename 7 1000000) ∧
    mkFilename 7 999999 ≠ mkFilename 7 1000000 ∧
    ¬ List.Lex (· < ·) (mkFilename 7 999999) (mkFilename 7 1000000) ∧
    List.Lex (· < ·) (mkFilename 7 1000000) (mkFilename 7 999999) := by
  refine ⟨by decide, by decide, by decide, by decide, by decide⟩

